import Mathlib

/-!
Verification development for the forgesteel storage-synchronization layer.

The definitions below are shallow embeddings of the TypeScript sources:
  * `src/hooks/use-google-drive-sync.ts` (Sync Coordinator),
  * `src/service/google/google-auth-service.ts` (`isTokenExpired`),
  * the storage factory `StorageServiceFactory.fromConnectionSettings`,
  * `GoogleDriveService` (file-name map, file cache, `get`/`put`),
  * `src/logic/update/connection-settings-update-logic.ts`.

Timers (`setTimeout`) are modelled as recorded deadlines; a timer firing is an
explicit event that requires the recorded deadline to match the firing time.
The event loop is single-threaded, so every state transition is a pure function
on the coordinator state.
-/

/-! ## Sync Coordinator (use-google-drive-sync.ts) -/

/-- `DriveSyncStatus` from `use-google-drive-sync.ts`. -/
inductive DriveSyncStatus where
  | idle
  | syncing
  | synced
  | error
  | offline
deriving DecidableEq, Repr

/-- Configuration of the hook (`UseGoogleDriveSyncOptions`): `enabled`,
`debounceMs` (default 2000), and whether an `onSync` callback is registered. -/
structure SyncCfg where
  enabled : Bool
  debounceMs : Nat
  hasOnSync : Bool
deriving DecidableEq, Repr

/-- Full coordinator state: the `DriveSyncState` React state (`status`,
`lastSyncTime`, `error`, `pendingChanges`), the refs
(`debounceTimerRef` as a recorded deadline, `isSyncingRef` as `inFlight`,
`pendingAfterSyncRef`), the deadline of the rerun timer scheduled on a
successful sync that had `pendingAfterSync` set, the deadline of the 100 ms
back-online settle timer, the `isOnline` flag, plus the ghost trace
`syncStarts` recording the times at which `onSync` was invoked. -/
structure Coord where
  status : DriveSyncStatus
  lastSyncTime : Option Nat
  error : Option String
  pendingChanges : Bool
  debounceDeadline : Option Nat
  rerunDeadline : Option Nat
  settleDeadline : Option Nat
  inFlight : Nat
  pendingAfterSync : Bool
  isOnline : Bool
  syncStarts : List Nat
deriving DecidableEq, Repr

/-- Initial hook state (`useState` initializers): status `idle`, nothing
pending, no timers, online. -/
def initCoord : Coord :=
  { status := .idle
    lastSyncTime := none
    error := none
    pendingChanges := false
    debounceDeadline := none
    rerunDeadline := none
    settleDeadline := none
    inFlight := 0
    pendingAfterSync := false
    isOnline := true
    syncStarts := [] }

/-- Start of `performSync` (lines 82-98): bail out when disabled, no `onSync`
registered, or offline; if a sync is already in flight, record
`pendingAfterSyncRef.current = true` and return; otherwise set
`isSyncingRef.current = true`, status `syncing`, clear the error, and invoke
`onSync` (recorded in the ghost trace `syncStarts`). The `await` point splits
the rest into `syncSuccess` / `syncFailure`. -/
def performSync (cfg : SyncCfg) (s : Coord) (t : Nat) : Coord :=
  if !cfg.enabled || !cfg.hasOnSync || !s.isOnline then s
  else if s.inFlight ≠ 0 then { s with pendingAfterSync := true }
  else
    { s with inFlight := 1, status := .syncing, error := none,
             syncStarts := s.syncStarts ++ [t] }

/-- Completion of `performSync` when `onSync` resolves at time `t`
(lines 103-116 plus the `finally`): status `synced`, record the timestamp,
clear `pendingChanges` and `error`; if `pendingAfterSyncRef` was set, clear it
and schedule another `performSync` `debounceMs` later; finally clear
`isSyncingRef`. Guarded: a completion only exists for a started sync. -/
def syncSuccess (cfg : SyncCfg) (s : Coord) (t : Nat) : Coord :=
  if s.inFlight = 0 then s
  else
    let s1 := { s with status := .synced, lastSyncTime := some t,
                       pendingChanges := false, error := none }
    let s2 :=
      if s1.pendingAfterSync then
        { s1 with pendingAfterSync := false,
                  rerunDeadline := some (t + cfg.debounceMs) }
      else s1
    { s2 with inFlight := 0 }

/-- Completion of `performSync` when `onSync` rejects (lines 117-132): status
`error`, record the message; `pendingChanges` and `pendingAfterSyncRef` are
left untouched, no rerun is scheduled; `finally` clears `isSyncingRef`. -/
def syncFailure (s : Coord) (msg : String) : Coord :=
  if s.inFlight = 0 then s
  else { s with status := .error, error := some msg, inFlight := 0 }

/-- `triggerSync` called at wall time `t` (lines 139-160): no-op when
disabled; otherwise set `pendingChanges`, demote `synced` to `idle`, and
(re)start the debounce timer to fire at `t + debounceMs`. -/
def triggerSyncAt (cfg : SyncCfg) (s : Coord) (t : Nat) : Coord :=
  if !cfg.enabled then s
  else
    { s with pendingChanges := true,
             status := if s.status = .synced then .idle else s.status,
             debounceDeadline := some (t + cfg.debounceMs) }

/-- `forceSync` at time `t` (lines 165-177): no-op when disabled; otherwise
cancel the debounce timer and run `performSync` immediately. -/
def forceSyncAt (cfg : SyncCfg) (s : Coord) (t : Nat) : Coord :=
  if !cfg.enabled then s
  else performSync cfg { s with debounceDeadline := none } t

/-- `cancelPendingSync` (lines 182-191): cancel the debounce timer and clear
`pendingChanges`; note there is no `enabled` guard. -/
def cancelPendingSync (s : Coord) : Coord :=
  { s with debounceDeadline := none, pendingChanges := false }

/-- The debounce timer fires at time `t`: only possible if the timer is set
for exactly that time; it then runs `performSync` (line 157-159). -/
def fireDebounceAt (cfg : SyncCfg) (s : Coord) (t : Nat) : Coord :=
  if s.debounceDeadline = some t then
    performSync cfg { s with debounceDeadline := none } t
  else s

/-- The rerun timer scheduled by a successful sync fires at time `t`
(line 115). -/
def fireRerunAt (cfg : SyncCfg) (s : Coord) (t : Nat) : Coord :=
  if s.rerunDeadline = some t then
    performSync cfg { s with rerunDeadline := none } t
  else s

/-- The 100 ms back-online settle timer fires at time `t` (lines 209-213):
re-check `pendingChangesRef` and run `performSync` if still pending. -/
def fireSettleAt (cfg : SyncCfg) (s : Coord) (t : Nat) : Coord :=
  if s.settleDeadline = some t then
    let s1 := { s with settleDeadline := none }
    if s1.pendingChanges then performSync cfg s1 t else s1
  else s

/-- Network lost: the online-status effect (lines 63-68) forces status to
`offline` when it is not already; the back-online effect's cleanup
(line 214) clears any armed settle timer. -/
def goOffline (s : Coord) : Coord :=
  let s1 := { s with isOnline := false, settleDeadline := none }
  if s1.status ≠ .offline then { s1 with status := .offline } else s1

/-- Network restored at time `t`: the online-status effect (lines 69-74)
restores status from `offline` to `idle` when changes are pending and to
`synced` otherwise; the back-online effect (lines 206-218) arms the 100 ms
settle timer when changes are pending and the hook is enabled. -/
def goOnlineAt (cfg : SyncCfg) (s : Coord) (t : Nat) : Coord :=
  let s1 := { s with isOnline := true }
  let s2 :=
    if s1.status = .offline then
      { s1 with status := if s1.pendingChanges then .idle else .synced }
    else s1
  if s2.pendingChanges && cfg.enabled then
    { s2 with settleDeadline := some (t + 100) }
  else { s2 with settleDeadline := none }

/-- Fire the debounce timer at wall time `t` if it is overdue (deadline
`≤ t`); used to interleave timer expiry with a stream of `triggerSync`
calls. -/
def tryFireDebounce (cfg : SyncCfg) (s : Coord) (t : Nat) : Coord :=
  match s.debounceDeadline with
  | some d => if d ≤ t then performSync cfg { s with debounceDeadline := none } d else s
  | none => s

/-- Process a time-ordered stream of `triggerSync` calls, firing the debounce
timer between calls whenever it comes due. -/
def runTriggers (cfg : SyncCfg) (s : Coord) : List Nat → Coord
  | [] => s
  | t :: ts => runTriggers cfg (triggerSyncAt cfg (tryFireDebounce cfg s t) t) ts

/-- Events the coordinator can receive: user actions, timer expiries,
`onSync` completions, and connectivity changes. -/
inductive SyncEv where
  | trigger (t : Nat)
  | force (t : Nat)
  | cancel
  | fireDeb (t : Nat)
  | fireRerun (t : Nat)
  | fireSettle (t : Nat)
  | succeed (t : Nat)
  | fail (msg : String)
  | wentOffline
  | wentOnline (t : Nat)
deriving DecidableEq, Repr

/-- One event step of the coordinator. -/
def stepEv (cfg : SyncCfg) (s : Coord) : SyncEv → Coord
  | .trigger t => triggerSyncAt cfg s t
  | .force t => forceSyncAt cfg s t
  | .cancel => cancelPendingSync s
  | .fireDeb t => fireDebounceAt cfg s t
  | .fireRerun t => fireRerunAt cfg s t
  | .fireSettle t => fireSettleAt cfg s t
  | .succeed t => syncSuccess cfg s t
  | .fail msg => syncFailure s msg
  | .wentOffline => goOffline s
  | .wentOnline t => goOnlineAt cfg s t

/-- Run a list of events from a state. -/
def runEvents (cfg : SyncCfg) (s : Coord) (evs : List SyncEv) : Coord :=
  evs.foldl (stepEv cfg) s

/-! ## Token Authenticator (google-auth-service.ts) -/

/-- `GoogleAuthService.isTokenExpired` (lines 202-206), with `Date.now()`
passed explicitly as `now`. The JavaScript guard `if (!expiresAt) return true`
is truthy: it fires for `null` and also for the number `0`, hence the extra
`e = 0` case. Otherwise: expired iff `now > expiresAt - 5 * 60 * 1000`. -/
def isTokenExpired (now : Int) (expiresAt : Option Int) : Bool :=
  match expiresAt with
  | none => true
  | some e => if e = 0 then true else decide (now > e - 5 * 60 * 1000)

/-! ## ConnectionSettings and the storage factory -/

/-- `ConnectionSettings` model (connection-settings.ts): nullable strings are
`Option String`, the nullable epoch-millisecond expiry is `Option Int`. -/
structure ConnectionSettings where
  useWarehouse : Bool
  warehouseHost : String
  warehouseToken : String
  patreonConnected : Bool
  useGoogleDrive : Bool
  googleDriveFolderId : Option String
  googleDriveFolderName : Option String
  googleDriveAccessToken : Option String
  googleDriveRefreshToken : Option String
  googleDriveTokenExpiry : Option Int
deriving DecidableEq, Repr

/-- JavaScript truthiness of a `string | null` value: `null` and the empty
string are falsy. -/
def strPresent : Option String → Bool
  | none => false
  | some s => s != ""

/-- The three `StorageService` implementations the factory can return. -/
inductive StorageKind where
  | warehouseService
  | googleDriveService
  | localService
deriving DecidableEq, Repr

/-- `StorageServiceFactory.fromConnectionSettings`: priority
Warehouse > Google Drive > Local, where the drive branch requires
`useGoogleDrive && googleDriveFolderId && googleDriveAccessToken` (all three
truthy). -/
def fromConnectionSettings (s : ConnectionSettings) : StorageKind :=
  if s.useWarehouse then .warehouseService
  else if s.useGoogleDrive && strPresent s.googleDriveFolderId
         && strPresent s.googleDriveAccessToken then .googleDriveService
  else .localService

/-- The factory exactly as claim C5 words it (refinement spec, for
comparison with the source definition): after the warehouse branch, the drive
variant is returned whenever a folder id and an access token are both
present; the `useGoogleDrive` flag is not consulted. -/
def factoryClaimC5 (s : ConnectionSettings) : StorageKind :=
  if s.useWarehouse then .warehouseService
  else if strPresent s.googleDriveFolderId
         && strPresent s.googleDriveAccessToken then .googleDriveService
  else .localService

/-- Claim C5 amended to match the source: the drive branch additionally
requires the `useGoogleDrive` flag. -/
def factoryClaimC5Amended (s : ConnectionSettings) : StorageKind :=
  if s.useWarehouse then .warehouseService
  else if s.useGoogleDrive && strPresent s.googleDriveFolderId
         && strPresent s.googleDriveAccessToken then .googleDriveService
  else .localService

/-! ## ConnectionSettingsUpdateLogic (connection-settings-update-logic.ts) -/

/-- A `ConnectionSettings` record as it arrives at
`ConnectionSettingsUpdateLogic.updateSettings`: every field may still be
`undefined` (outer `Option`); the Google Drive fields are additionally
nullable (inner `Option`). -/
structure RawConnectionSettings where
  useWarehouse : Option Bool
  warehouseHost : Option String
  warehouseToken : Option String
  patreonConnected : Option Bool
  useGoogleDrive : Option Bool
  googleDriveFolderId : Option (Option String)
  googleDriveFolderName : Option (Option String)
  googleDriveAccessToken : Option (Option String)
  googleDriveRefreshToken : Option (Option String)
  googleDriveTokenExpiry : Option (Option Int)
deriving DecidableEq, Repr

/-- `ConnectionSettingsUpdateLogic.updateSettings`: each field that is
`undefined` is assigned its default (`false` for the boolean flags, `''` for
the warehouse strings, `null` for the Google Drive fields); defined fields
are left untouched. -/
def updateSettings (s : RawConnectionSettings) : RawConnectionSettings :=
  { useWarehouse := some (s.useWarehouse.getD false)
    warehouseHost := some (s.warehouseHost.getD "")
    warehouseToken := some (s.warehouseToken.getD "")
    patreonConnected := some (s.patreonConnected.getD false)
    useGoogleDrive := some (s.useGoogleDrive.getD false)
    googleDriveFolderId := some (s.googleDriveFolderId.getD none)
    googleDriveFolderName := some (s.googleDriveFolderName.getD none)
    googleDriveAccessToken := some (s.googleDriveAccessToken.getD none)
    googleDriveRefreshToken := some (s.googleDriveRefreshToken.getD none)
    googleDriveTokenExpiry := some (s.googleDriveTokenExpiry.getD none) }

/-! ## GoogleDriveService: file-name map, remote drive, cache, get/put -/

/-- `FILE_NAME_MAP` from google-drive-service.ts. -/
def FILE_NAME_MAP (key : String) : Option String :=
  if key = "forgesteel-heroes" then some "forgesteel-heroes.json"
  else if key = "forgesteel-homebrew-settings" then some "forgesteel-homebrew.json"
  else if key = "forgesteel-session" then some "forgesteel-session.json"
  else if key = "forgesteel-options" then some "forgesteel-options.json"
  else if key = "forgesteel-hidden-setting-ids" then some "forgesteel-hidden-ids.json"
  else none

/-- `GoogleDriveService.getFileName`: `FILE_NAME_MAP[key] || key + ".json"`
(every mapped value is a non-empty string, so `||` is exactly the
absent-key fallback). -/
def getFileName (key : String) : String :=
  match FILE_NAME_MAP key with
  | some name => name
  | none => key ++ ".json"

/-- A file stored on the remote drive, as visible through
`GoogleDriveClient`: id, name, containing folder, JSON content (abstracted to
a type parameter; JSON serialize/parse is modelled as the identity), and
modification time. -/
structure RemoteFile (α : Type) where
  id : Nat
  name : String
  folderId : String
  content : α
  modifiedTime : Nat
deriving DecidableEq, Repr

/-- The remote drive: its files plus a fresh-id counter for file creation. -/
structure Drive (α : Type) where
  files : List (RemoteFile α)
  nextId : Nat
deriving DecidableEq, Repr

/-- Well-formedness of the remote drive: file ids are pairwise distinct and
below the fresh-id counter. -/
def Drive.wf {α : Type} (d : Drive α) : Prop :=
  d.files.Pairwise (fun f g => f.id ≠ g.id) ∧ ∀ f ∈ d.files, f.id < d.nextId

/-- `GoogleDriveClient.findFile` on a working backend: exact-name lookup
scoped to one folder, first match or none (`pageSize: 1`). -/
def findFile {α : Type} (d : Drive α) (name : String) (folderId : String) :
    Option (RemoteFile α) :=
  (d.files.filter (fun f => f.name == name && f.folderId == folderId)).head?

/-- `GoogleDriveClient.readFile` on a working backend: content of the file
with the given id, or an error when it does not exist. -/
def readFile {α : Type} (d : Drive α) (fid : Nat) : Except String α :=
  match d.files.find? (fun f => f.id == fid) with
  | some f => .ok f.content
  | none => .error "Failed to read file: 404"

/-- `GoogleDriveClient.writeFile` on a working backend: with an existing id,
overwrite that file's content in place (name and folder membership
preserved); otherwise create a new file with a fresh id. Returns the
resulting file id together with the updated drive. -/
def writeFile {α : Type} (d : Drive α) (name : String) (content : α)
    (folderId : String) (existingId : Option Nat) (now : Nat) :
    Except String (Nat × Drive α) :=
  match existingId with
  | some fid =>
    if d.files.any (fun f => f.id == fid) then
      .ok (fid,
        { d with files := d.files.map (fun f =>
            if f.id == fid then { f with content := content, modifiedTime := now } else f) })
    else .error "Failed to update file: 404"
  | none =>
    .ok (d.nextId,
      { files := d.files ++
          [{ id := d.nextId, name := name, folderId := folderId,
             content := content, modifiedTime := now }],
        nextId := d.nextId + 1 })

/-- `GoogleDriveService` instance state: the configured folder and the
`fileCache` mapping a storage key to `{fileId, modifiedTime}`. The token
machinery (`ensureValidClient`) is abstracted away: on a working backend the
token check either passes or transparently refreshes. -/
structure GoogleDriveSvc where
  folderId : String
  cache : List (String × Nat × Nat)
deriving DecidableEq, Repr

/-- Lookup in the `fileCache` (JavaScript object indexing). -/
def cacheLookup (c : List (String × Nat × Nat)) (key : String) : Option (Nat × Nat) :=
  (c.find? (fun e => e.1 == key)).map (fun e => e.2)

/-- Assignment `fileCache[key] = v` (replaces any previous entry). -/
def cacheInsert (c : List (String × Nat × Nat)) (key : String) (v : Nat × Nat) :
    List (String × Nat × Nat) :=
  (key, v) :: c.filter (fun e => e.1 != key)

/-- `GoogleDriveService.getFileInfo`: answer from the cache when possible,
otherwise search the drive by file name and cache a hit. Returns the
`(fileId, modifiedTime)` pair (the only parts of the `DriveFile` used by the
callers) and the possibly-updated service state. -/
def getFileInfo {α : Type} (svc : GoogleDriveSvc) (d : Drive α) (key : String) :
    Option (Nat × Nat) × GoogleDriveSvc :=
  match cacheLookup svc.cache key with
  | some (fid, mt) => (some (fid, mt), svc)
  | none =>
    match findFile d (getFileName key) svc.folderId with
    | some f => (some (f.id, f.modifiedTime),
                 { svc with cache := cacheInsert svc.cache key (f.id, f.modifiedTime) })
    | none => (none, svc)

/-- `GoogleDriveService.get`: resolve the key via `getFileInfo`; `null` when
the file does not exist, otherwise read and parse it. -/
def svcGet {α : Type} (svc : GoogleDriveSvc) (d : Drive α) (key : String) :
    Except String (Option α) × GoogleDriveSvc :=
  match getFileInfo svc d key with
  | (none, svc1) => (.ok none, svc1)
  | (some (fid, _), svc1) =>
    match readFile d fid with
    | .ok v => (.ok (some v), svc1)
    | .error e => (.error e, svc1)

/-- `GoogleDriveService.put` at time `now`: resolve any existing file via
`getFileInfo`, write (create or update), refresh the cache entry with the
resulting file id and a fresh timestamp, and resolve to the stored value. -/
def svcPut {α : Type} (svc : GoogleDriveSvc) (d : Drive α) (key : String)
    (value : α) (now : Nat) :
    Except String α × GoogleDriveSvc × Drive α :=
  let r := getFileInfo svc d key
  match writeFile d (getFileName key) value r.2.folderId (r.1.map (fun p => p.1)) now with
  | .ok (fid, d1) =>
    (.ok value, { r.2 with cache := cacheInsert r.2.cache key (fid, now) }, d1)
  | .error e => (.error e, r.2, d)

/-- Consistency of the service's file cache with the remote drive: every
cached file id denotes an existing remote file. -/
def cacheConsistent {α : Type} (svc : GoogleDriveSvc) (d : Drive α) : Prop :=
  ∀ key fid mt, cacheLookup svc.cache key = some (fid, mt) → ∃ f ∈ d.files, f.id = fid

/-! ## Local and warehouse variants (not under src/) -/

/-- Modelled from the spec: the Local variant is a "thin pass-through to
on-device persistent storage" with the uniform contract
`get(key) → T | null`; the on-device store is modelled as a key-value list.
Its source file (local-service.ts) is not part of the provided sources. -/
def localGet {α : Type} (store : List (String × α)) (key : String) : Option α :=
  (store.find? (fun e => e.1 == key)).map (fun e => e.2)

/-- Modelled from the spec: `put(key, value) → T` on the Local variant stores
the value under the key and resolves to it. -/
def localPut {α : Type} (store : List (String × α)) (key : String) (v : α) :
    α × List (String × α) :=
  (v, (key, v) :: store.filter (fun e => e.1 != key))

/-- Modelled from the spec: the Warehouse variant has the "same get/put
contract against a hosted multi-user API ... treated as an opaque remote KV
store"; its source (warehouse-service.ts) is not part of the provided
sources. -/
def warehouseGet {α : Type} (store : List (String × α)) (key : String) : Option α :=
  (store.find? (fun e => e.1 == key)).map (fun e => e.2)

/-- Modelled from the spec: `put` on the Warehouse variant. -/
def warehousePut {α : Type} (store : List (String × α)) (key : String) (v : α) :
    α × List (String × α) :=
  (v, (key, v) :: store.filter (fun e => e.1 != key))

/-! ## Theorems -/

/-- Concrete `ConnectionSettings` with valid drive credentials but
`useGoogleDrive = false` (used to separate the factory from claim C5's
wording). -/
def settingsDriveCredsNoFlag : ConnectionSettings :=
  { useWarehouse := false
    warehouseHost := ""
    warehouseToken := ""
    patreonConnected := false
    useGoogleDrive := false
    googleDriveFolderId := some "folder-1"
    googleDriveFolderName := some "Forgesteel"
    googleDriveAccessToken := some "token-1"
    googleDriveRefreshToken := none
    googleDriveTokenExpiry := none }

/-- C5 counterexample: with `useWarehouse = false`, a present drive folder id
and a present access token but `useGoogleDrive = false`, the factory returns
the local variant, while the claim ("otherwise, if a drive folder id and an
access token are both present it returns the drive variant") demands the
drive variant: the factory also requires the `useGoogleDrive` flag. -/
theorem C5_counterexample :
    settingsDriveCredsNoFlag.useWarehouse = false
    ∧ strPresent settingsDriveCredsNoFlag.googleDriveFolderId = true
    ∧ strPresent settingsDriveCredsNoFlag.googleDriveAccessToken = true
    ∧ fromConnectionSettings settingsDriveCredsNoFlag = .localService
    ∧ factoryClaimC5 settingsDriveCredsNoFlag = .googleDriveService
    ∧ fromConnectionSettings settingsDriveCredsNoFlag
        ≠ factoryClaimC5 settingsDriveCredsNoFlag := by
  decide

/-- C5 (amended): the backend factory is a pure selection function with
priority warehouse > drive > local, where the drive variant additionally
requires `useGoogleDrive = true` besides a present folder id and access
token; with `useWarehouse = true` the warehouse variant wins even when valid
drive credentials are present. -/
theorem C5_factory_selection (s : ConnectionSettings) :
    fromConnectionSettings s = factoryClaimC5Amended s := rfl

/-- C6: `isTokenExpired` returns true on a missing expiry, and on a present
expiry it returns true exactly when fewer than 5 minutes (300000 ms) remain
before `expiresAt`; in particular `now + 10min` is not expired and
`now + 4min` is expired. -/
theorem C6_isTokenExpired (now e : Int) (h : 0 ≤ now) :
    isTokenExpired now none = true
    ∧ (isTokenExpired now (some e) = true ↔ e - now < 5 * 60 * 1000)
    ∧ isTokenExpired now (some (now + 10 * 60 * 1000)) = false
    ∧ isTokenExpired now (some (now + 4 * 60 * 1000)) = true := by
  refine ⟨rfl, ?_, ?_, ?_⟩
  · simp only [isTokenExpired]
    split_ifs with h0
    · simp
      omega
    · simp only [decide_eq_true_eq]
      omega
  · simp only [isTokenExpired]
    split_ifs with h0
    · exfalso
      omega
    · simp only [decide_eq_false_iff_not]
      omega
  · simp only [isTokenExpired]
    split_ifs with h0
    · rfl
    · simp only [decide_eq_true_eq]
      omega

/-- Witness for C6 at `now = 1700000000000` (a realistic epoch-millisecond
clock value) and `e = 42`. -/
theorem C6_witness :
    isTokenExpired 1700000000000 none = true
    ∧ (isTokenExpired 1700000000000 (some 42) = true ↔ (42 : Int) - 1700000000000 < 5 * 60 * 1000)
    ∧ isTokenExpired 1700000000000 (some (1700000000000 + 10 * 60 * 1000)) = false
    ∧ isTokenExpired 1700000000000 (some (1700000000000 + 4 * 60 * 1000)) = true :=
  C6_isTokenExpired 1700000000000 42 (by decide)

/-- C8: the drive backend maps each of the five table keys to its fixed
remote file name, and every key absent from the table maps to
`key ++ ".json"`. -/
theorem C8_fileNameMapping (key : String) (h : FILE_NAME_MAP key = none) :
    getFileName key = key ++ ".json"
    ∧ getFileName "forgesteel-heroes" = "forgesteel-heroes.json"
    ∧ getFileName "forgesteel-homebrew-settings" = "forgesteel-homebrew.json"
    ∧ getFileName "forgesteel-session" = "forgesteel-session.json"
    ∧ getFileName "forgesteel-options" = "forgesteel-options.json"
    ∧ getFileName "forgesteel-hidden-setting-ids" = "forgesteel-hidden-ids.json" := by
  refine ⟨?_, rfl, rfl, rfl, rfl, rfl⟩
  simp [getFileName, h]

/-- Witness for C8 at the unmapped key "custom-key". -/
theorem C8_witness :
    getFileName "custom-key" = "custom-key.json"
    ∧ getFileName "forgesteel-heroes" = "forgesteel-heroes.json" := by
  have h := C8_fileNameMapping "custom-key" (by decide)
  exact ⟨h.1.trans (by decide), h.2.1⟩

/-- C9: `updateSettings` is total and fills defaults without disturbing
existing data. First block: every field of the result is defined. Second
block: each undefined field receives its default (`false` / `''` / `null`).
Third block: each already-defined field keeps its value. -/
theorem C9_updateSettings (s : RawConnectionSettings) :
    ((updateSettings s).useWarehouse.isSome = true
      ∧ (updateSettings s).warehouseHost.isSome = true
      ∧ (updateSettings s).warehouseToken.isSome = true
      ∧ (updateSettings s).patreonConnected.isSome = true
      ∧ (updateSettings s).useGoogleDrive.isSome = true
      ∧ (updateSettings s).googleDriveFolderId.isSome = true
      ∧ (updateSettings s).googleDriveFolderName.isSome = true
      ∧ (updateSettings s).googleDriveAccessToken.isSome = true
      ∧ (updateSettings s).googleDriveRefreshToken.isSome = true
      ∧ (updateSettings s).googleDriveTokenExpiry.isSome = true)
    ∧ (s.useWarehouse = none → (updateSettings s).useWarehouse = some false)
    ∧ (s.warehouseHost = none → (updateSettings s).warehouseHost = some "")
    ∧ (s.warehouseToken = none → (updateSettings s).warehouseToken = some "")
    ∧ (s.patreonConnected = none → (updateSettings s).patreonConnected = some false)
    ∧ (s.useGoogleDrive = none → (updateSettings s).useGoogleDrive = some false)
    ∧ (s.googleDriveFolderId = none → (updateSettings s).googleDriveFolderId = some none)
    ∧ (s.googleDriveFolderName = none → (updateSettings s).googleDriveFolderName = some none)
    ∧ (s.googleDriveAccessToken = none → (updateSettings s).googleDriveAccessToken = some none)
    ∧ (s.googleDriveRefreshToken = none → (updateSettings s).googleDriveRefreshToken = some none)
    ∧ (s.googleDriveTokenExpiry = none → (updateSettings s).googleDriveTokenExpiry = some none)
    ∧ (∀ v, s.useWarehouse = some v → (updateSettings s).useWarehouse = some v)
    ∧ (∀ v, s.warehouseHost = some v → (updateSettings s).warehouseHost = some v)
    ∧ (∀ v, s.warehouseToken = some v → (updateSettings s).warehouseToken = some v)
    ∧ (∀ v, s.patreonConnected = some v → (updateSettings s).patreonConnected = some v)
    ∧ (∀ v, s.useGoogleDrive = some v → (updateSettings s).useGoogleDrive = some v)
    ∧ (∀ v, s.googleDriveFolderId = some v → (updateSettings s).googleDriveFolderId = some v)
    ∧ (∀ v, s.googleDriveFolderName = some v → (updateSettings s).googleDriveFolderName = some v)
    ∧ (∀ v, s.googleDriveAccessToken = some v → (updateSettings s).googleDriveAccessToken = some v)
    ∧ (∀ v, s.googleDriveRefreshToken = some v → (updateSettings s).googleDriveRefreshToken = some v)
    ∧ (∀ v, s.googleDriveTokenExpiry = some v → (updateSettings s).googleDriveTokenExpiry = some v) := by
  refine ⟨⟨?_, ?_, ?_, ?_, ?_, ?_, ?_, ?_, ?_, ?_⟩,
    ?_, ?_, ?_, ?_, ?_, ?_, ?_, ?_, ?_, ?_, ?_, ?_, ?_, ?_, ?_, ?_, ?_, ?_, ?_, ?_⟩ <;>
    first
      | rfl
      | (intro h; simp [updateSettings, h])
      | (intro v h; simp [updateSettings, h])

/-- Mixed partial settings record used to witness C9. -/
def rawSettingsExample : RawConnectionSettings :=
  { useWarehouse := some true
    warehouseHost := none
    warehouseToken := none
    patreonConnected := none
    useGoogleDrive := none
    googleDriveFolderId := some (some "abc")
    googleDriveFolderName := none
    googleDriveAccessToken := none
    googleDriveRefreshToken := none
    googleDriveTokenExpiry := none }

/-- Witness for C9 on `rawSettingsExample`: the defined fields keep their
values, the undefined ones get their defaults. -/
theorem C9_witness :
    (updateSettings rawSettingsExample).useWarehouse = some true
    ∧ (updateSettings rawSettingsExample).warehouseHost = some ""
    ∧ (updateSettings rawSettingsExample).googleDriveFolderId = some (some "abc")
    ∧ (updateSettings rawSettingsExample).googleDriveTokenExpiry = some none := by
  obtain ⟨hA, hD1, hD2, hD3, hD4, hD5, hD6, hD7, hD8, hD9, hD10,
    hP1, hP2, hP3, hP4, hP5, hP6, hP7, hP8, hP9, hP10⟩ :=
    C9_updateSettings rawSettingsExample
  exact ⟨hP1 true rfl, hD2 rfl, hP6 (some "abc") rfl, hD10 rfl⟩

/-- C10: with `enabled = false`, `triggerSync` and `forceSync` leave the
whole coordinator state unchanged (no state write, no timer, no `onSync`
invocation), while `cancelPendingSync` still clears `pendingChanges` (and the
debounce timer) and touches nothing else. -/
theorem C10_disabled_noop (cfg : SyncCfg) (s : Coord) (t u : Nat)
    (hE : cfg.enabled = false) :
    triggerSyncAt cfg s t = s
    ∧ forceSyncAt cfg s u = s
    ∧ (cancelPendingSync s).pendingChanges = false
    ∧ (cancelPendingSync s).debounceDeadline = none
    ∧ (cancelPendingSync s).status = s.status
    ∧ (cancelPendingSync s).error = s.error
    ∧ (cancelPendingSync s).lastSyncTime = s.lastSyncTime
    ∧ (cancelPendingSync s).syncStarts = s.syncStarts := by
  refine ⟨?_, ?_, rfl, rfl, rfl, rfl, rfl, rfl⟩
  · simp [triggerSyncAt, hE]
  · simp [forceSyncAt, hE]

/-- Witness for C10 with a disabled configuration on the initial state. -/
theorem C10_witness :
    triggerSyncAt ⟨false, 2000, true⟩ initCoord 5 = initCoord
    ∧ forceSyncAt ⟨false, 2000, true⟩ initCoord 7 = initCoord
    ∧ (cancelPendingSync initCoord).pendingChanges = false := by
  have h := C10_disabled_noop ⟨false, 2000, true⟩ initCoord 5 7 rfl
  exact ⟨h.1, h.2.1, h.2.2.1⟩

/-- C3: when `onSync` rejects, status becomes `error` with the failure
message recorded and `pendingChanges` stays true; the next sync that runs and
succeeds sets status `synced` and clears both `pendingChanges` and the
error. -/
theorem C3_failure_then_success (cfg : SyncCfg) (s : Coord) (msg : String) (t u : Nat)
    (hIn : s.inFlight = 1) (hP : s.pendingChanges = true)
    (hE : cfg.enabled = true) (hS : cfg.hasOnSync = true) (hOn : s.isOnline = true) :
    (syncFailure s msg).status = .error
    ∧ (syncFailure s msg).error = some msg
    ∧ (syncFailure s msg).pendingChanges = true
    ∧ (performSync cfg (syncFailure s msg) t).syncStarts = s.syncStarts ++ [t]
    ∧ (syncSuccess cfg (performSync cfg (syncFailure s msg) t) u).status = .synced
    ∧ (syncSuccess cfg (performSync cfg (syncFailure s msg) t) u).pendingChanges = false
    ∧ (syncSuccess cfg (performSync cfg (syncFailure s msg) t) u).error = none := by
  have hfail : syncFailure s msg =
      { s with status := .error, error := some msg, inFlight := 0 } := by
    simp [syncFailure, hIn]
  have hrun : performSync cfg (syncFailure s msg) t =
      { s with status := .syncing, error := none, inFlight := 1,
               syncStarts := s.syncStarts ++ [t] } := by
    rw [hfail]
    simp [performSync, hE, hS, hOn]
  rw [hrun, hfail]
  refine ⟨rfl, rfl, hP, rfl, ?_, ?_, ?_⟩ <;>
    · simp only [syncSuccess]
      split_ifs <;> simp_all

/-- Coordinator state with a sync in flight and pending changes, used to
witness C3. -/
def coordInFlight : Coord :=
  { initCoord with inFlight := 1, status := .syncing, pendingChanges := true }

/-- Witness for C3: a failure at the in-flight state, then a successful
sync. -/
theorem C3_witness :
    (syncFailure coordInFlight "boom").status = .error
    ∧ (syncFailure coordInFlight "boom").pendingChanges = true
    ∧ (syncSuccess ⟨true, 2000, true⟩
        (performSync ⟨true, 2000, true⟩ (syncFailure coordInFlight "boom") 10) 20).status = .synced
    ∧ (syncSuccess ⟨true, 2000, true⟩
        (performSync ⟨true, 2000, true⟩ (syncFailure coordInFlight "boom") 10) 20).pendingChanges = false
    ∧ (syncSuccess ⟨true, 2000, true⟩
        (performSync ⟨true, 2000, true⟩ (syncFailure coordInFlight "boom") 10) 20).error = none := by
  have h := C3_failure_then_success ⟨true, 2000, true⟩ coordInFlight "boom" 10 20
    rfl rfl rfl rfl rfl
  exact ⟨h.1, h.2.2.1, h.2.2.2.2.1, h.2.2.2.2.2.1, h.2.2.2.2.2.2⟩

/-- C4: losing the network forces status to `offline` regardless of the
prior status; returning online restores `idle` when changes are pending and
`synced` otherwise; with pending changes the 100 ms settle timer is armed and
its expiry runs exactly one sync without further user action; and a sync
attempted while offline is a silent no-op (the state is returned
unchanged). -/
theorem C4_connectivity (cfg : SyncCfg) (s : Coord) (t u : Nat)
    (hE : cfg.enabled = true) (hS : cfg.hasOnSync = true) :
    (goOffline s).status = .offline
    ∧ (goOffline s).isOnline = false
    ∧ (s.status = .offline →
        (goOnlineAt cfg s t).status =
          if s.pendingChanges then DriveSyncStatus.idle else .synced)
    ∧ (s.pendingChanges = true → (goOnlineAt cfg s t).settleDeadline = some (t + 100))
    ∧ (s.pendingChanges = true → s.inFlight = 0 →
        (fireSettleAt cfg (goOnlineAt cfg s t) (t + 100)).syncStarts
          = s.syncStarts ++ [t + 100])
    ∧ (s.isOnline = false → performSync cfg s u = s) := by
  refine ⟨?_, ?_, ?_, ?_, ?_, ?_⟩
  · simp only [goOffline]
    split_ifs with h
    · rfl
    · simpa using h
  · simp only [goOffline]
    split_ifs <;> rfl
  · intro h
    simp only [goOnlineAt, h]
    split_ifs <;> simp_all
  · intro hP
    simp only [goOnlineAt]
    split_ifs <;> simp_all
  · intro hP hIn
    have hon : goOnlineAt cfg s t =
        { s with isOnline := true,
                 status := if s.status = .offline then
                     (if s.pendingChanges then .idle else .synced)
                   else s.status,
                 settleDeadline := some (t + 100) } := by
      simp only [goOnlineAt]
      split_ifs with h1 h2 h2 <;> simp_all
    rw [hon]
    simp [fireSettleAt, hP, performSync, hE, hS, hIn]
  · intro hOff
    simp [performSync, hOff]

/-- Offline coordinator state with pending changes, used to witness C4. -/
def coordOffline : Coord :=
  { initCoord with status := .offline, isOnline := false, pendingChanges := true }

/-- Witness for C4 at the offline-with-pending-changes state. -/
theorem C4_witness :
    (goOffline coordOffline).status = .offline
    ∧ (goOnlineAt ⟨true, 2000, true⟩ coordOffline 50).status = .idle
    ∧ (goOnlineAt ⟨true, 2000, true⟩ coordOffline 50).settleDeadline = some (50 + 100)
    ∧ (fireSettleAt ⟨true, 2000, true⟩ (goOnlineAt ⟨true, 2000, true⟩ coordOffline 50) (50 + 100)).syncStarts
        = coordOffline.syncStarts ++ [50 + 100]
    ∧ performSync ⟨true, 2000, true⟩ coordOffline 7 = coordOffline := by
  have h := C4_connectivity ⟨true, 2000, true⟩ coordOffline 50 7 rfl rfl
  refine ⟨h.1, ?_, h.2.2.2.1 rfl, h.2.2.2.2.1 rfl rfl, h.2.2.2.2.2 rfl⟩
  have h3 := h.2.2.1 rfl
  simpa using h3

/-- Invariant of a debounce-window trigger burst: while processing a stream
of `triggerSync` calls in which each call arrives strictly before the
previously armed deadline, no sync starts; afterwards `pendingChanges` is
set and the debounce timer is armed `debounceMs` after the last call. -/
theorem runTriggers_accumulates (cfg : SyncCfg) (hE : cfg.enabled = true) :
    ∀ (ts : List Nat) (hne : ts ≠ []) (s : Coord),
      List.Chain' (fun a b => a ≤ b ∧ b < a + cfg.debounceMs) ts →
      (s.syncStarts = [] ∧ s.inFlight = 0 ∧ s.pendingAfterSync = false ∧
        s.rerunDeadline = none ∧ s.settleDeadline = none ∧ s.isOnline = true ∧
        s.status = .idle) →
      (∀ d, s.debounceDeadline = some d → ∀ t0, ts.head? = some t0 → t0 < d) →
      (runTriggers cfg s ts).syncStarts = []
      ∧ (runTriggers cfg s ts).inFlight = 0
      ∧ (runTriggers cfg s ts).pendingAfterSync = false
      ∧ (runTriggers cfg s ts).rerunDeadline = none
      ∧ (runTriggers cfg s ts).settleDeadline = none
      ∧ (runTriggers cfg s ts).isOnline = true
      ∧ (runTriggers cfg s ts).status = .idle
      ∧ (runTriggers cfg s ts).pendingChanges = true
      ∧ (runTriggers cfg s ts).debounceDeadline = some (ts.getLast hne + cfg.debounceMs) := by
  intro ts
  induction ts with
  | nil => intro hne; exact absurd rfl hne
  | cons t rest ih =>
    intro _ s hch hinv hd
    obtain ⟨h1, h2, h3, h4, h5, h6, h7⟩ := hinv
    have hfire : tryFireDebounce cfg s t = s := by
      cases hdd : s.debounceDeadline with
      | none => simp [tryFireDebounce, hdd]
      | some d =>
        have hlt := hd d hdd t rfl
        simp only [tryFireDebounce, hdd]
        rw [if_neg (by omega)]
    have htrig : triggerSyncAt cfg s t =
        { s with pendingChanges := true, status := .idle,
                 debounceDeadline := some (t + cfg.debounceMs) } := by
      simp [triggerSyncAt, hE, h7]
    have hstep : runTriggers cfg s (t :: rest) =
        runTriggers cfg { s with pendingChanges := true, status := .idle,
                                 debounceDeadline := some (t + cfg.debounceMs) } rest := by
      show runTriggers cfg (triggerSyncAt cfg (tryFireDebounce cfg s t) t) rest = _
      rw [hfire, htrig]
    rw [hstep]
    cases rest with
    | nil =>
      simp [runTriggers, h1, h2, h3, h4, h5, h6]
    | cons r rest1 =>
      have hch1 := (List.chain'_cons'.mp hch).2
      have hR := (List.chain'_cons'.mp hch).1 r rfl
      have hne1 : r :: rest1 ≠ [] := by simp
      have hhd : ∀ d, ({ s with pendingChanges := true, status := .idle, debounceDeadline := some (t + cfg.debounceMs) } : Coord).debounceDeadline = some d → ∀ t0, (r :: rest1).head? = some t0 → t0 < d := by
        intro d hdd t0 ht0
        simp at hdd ht0
        omega
      have hres := ih hne1 { s with pendingChanges := true, status := .idle, debounceDeadline := some (t + cfg.debounceMs) } hch1 ⟨h1, h2, h3, h4, h5, h6, rfl⟩ hhd
      have hlast : (t :: r :: rest1).getLast (by simp) = (r :: rest1).getLast (by simp) :=
        List.getLast_cons (by simp)
      rw [hlast]
      exact hres

/-- C2: for every nonempty sequence of `triggerSync` calls in which each call
arrives less than `debounceMs` after the previous one, no sync runs during
the burst (each earlier call merely resets the timer), the debounce timer
ends up armed `debounceMs` after the last call, and its expiry executes
exactly one sync, at time `last + debounceMs`. -/
theorem C2_debounce_coalescing (cfg : SyncCfg) (ts : List Nat) (hne : ts ≠ [])
    (hE : cfg.enabled = true) (hS : cfg.hasOnSync = true)
    (hch : List.Chain' (fun a b => a ≤ b ∧ b < a + cfg.debounceMs) ts) :
    (runTriggers cfg initCoord ts).syncStarts = []
    ∧ (runTriggers cfg initCoord ts).pendingChanges = true
    ∧ (runTriggers cfg initCoord ts).debounceDeadline = some (ts.getLast hne + cfg.debounceMs)
    ∧ (tryFireDebounce cfg (runTriggers cfg initCoord ts) (ts.getLast hne + cfg.debounceMs)).syncStarts
        = [ts.getLast hne + cfg.debounceMs]
    ∧ (tryFireDebounce cfg (runTriggers cfg initCoord ts) (ts.getLast hne + cfg.debounceMs)).inFlight = 1 := by
  obtain ⟨a1, a2, a3, a4, a5, a6, a7, a8, a9⟩ :=
    runTriggers_accumulates cfg hE ts hne initCoord hch
      ⟨rfl, rfl, rfl, rfl, rfl, rfl, rfl⟩
      (by intro d hd t0 ht0; simp [initCoord] at hd)
  refine ⟨a1, a8, a9, ?_, ?_⟩ <;>
    simp [tryFireDebounce, a9, performSync, hE, hS, a6, a2, a1]

/-- Witness for C2: three triggers at 0, 1000 and 1500 ms with
`debounceMs = 2000`; the single sync runs at 1500 + 2000. -/
theorem C2_witness :
    (runTriggers ⟨true, 2000, true⟩ initCoord [0, 1000, 1500]).syncStarts = []
    ∧ (tryFireDebounce ⟨true, 2000, true⟩
        (runTriggers ⟨true, 2000, true⟩ initCoord [0, 1000, 1500]) (1500 + 2000)).syncStarts
        = [1500 + 2000] := by
  have h := C2_debounce_coalescing ⟨true, 2000, true⟩ [0, 1000, 1500] (by simp)
    rfl rfl (by simp)
  have hg : [0, 1000, 1500].getLast (by simp) = 1500 := rfl
  have h4 := h.2.2.2.1
  rw [hg] at h4
  exact ⟨h.1, h4⟩

/-- `performSync` never produces more than one in-flight sync. -/
theorem performSync_inFlight_le_one (cfg : SyncCfg) (s : Coord) (t : Nat)
    (h : s.inFlight ≤ 1) : (performSync cfg s t).inFlight ≤ 1 := by
  unfold performSync
  split_ifs <;> simp_all

/-- Every coordinator event preserves `inFlight ≤ 1`: the single-flight guard
means a sync request arriving during an in-flight sync only sets the rerun
flag and never starts a second concurrent `onSync` invocation. -/
theorem stepEv_inFlight_le_one (cfg : SyncCfg) (s : Coord) (ev : SyncEv)
    (h : s.inFlight ≤ 1) : (stepEv cfg s ev).inFlight ≤ 1 := by
  cases ev with
  | trigger t =>
    show (triggerSyncAt cfg s t).inFlight ≤ 1
    unfold triggerSyncAt
    split_ifs <;> simp_all
  | force t =>
    show (forceSyncAt cfg s t).inFlight ≤ 1
    unfold forceSyncAt
    split_ifs with h1
    · exact h
    · exact performSync_inFlight_le_one cfg _ t h
  | cancel => exact h
  | fireDeb t =>
    show (fireDebounceAt cfg s t).inFlight ≤ 1
    unfold fireDebounceAt
    split_ifs with h1
    · exact performSync_inFlight_le_one cfg _ t h
    · exact h
  | fireRerun t =>
    show (fireRerunAt cfg s t).inFlight ≤ 1
    unfold fireRerunAt
    split_ifs with h1
    · exact performSync_inFlight_le_one cfg _ t h
    · exact h
  | fireSettle t =>
    show (fireSettleAt cfg s t).inFlight ≤ 1
    simp only [fireSettleAt]
    split_ifs <;> first | exact performSync_inFlight_le_one cfg _ t h | exact h
  | succeed t =>
    show (syncSuccess cfg s t).inFlight ≤ 1
    simp only [syncSuccess]
    split_ifs <;> first | exact h | simp
  | fail msg =>
    show (syncFailure s msg).inFlight ≤ 1
    unfold syncFailure
    split_ifs <;> simp_all
  | wentOffline =>
    show (goOffline s).inFlight ≤ 1
    simp only [goOffline]
    split_ifs <;> first | exact h | simp_all
  | wentOnline t =>
    show (goOnlineAt cfg s t).inFlight ≤ 1
    simp only [goOnlineAt]
    split_ifs <;> first | exact h | simp_all

/-- `inFlight ≤ 1` is an invariant of every event run. -/
theorem runEvents_inFlight_le_one (cfg : SyncCfg) (evs : List SyncEv) (s : Coord)
    (h : s.inFlight ≤ 1) : (runEvents cfg s evs).inFlight ≤ 1 := by
  induction evs generalizing s with
  | nil => exact h
  | cons e es ih => exact ih (stepEv cfg s e) (stepEv_inFlight_le_one cfg s e h)

/-- C1 counterexample: a trigger at 0 starts a sync at 2000 (debounce fire);
a second trigger at 2100 arrives while that sync is in flight, and its
debounce timer fires at 4100, still during the in-flight sync, so only the
rerun flag is set; the in-flight sync then completes with failure. The claim
says exactly one additional sync runs after the in-flight sync completes
"whether it succeeds or fails" — but after the failure only the original sync
has ever started (`syncStarts = [2000]`) and no timer of any kind remains
armed, so no additional sync can ever start without a fresh external
trigger: the failure path schedules nothing. -/
theorem C1_counterexample :
    (runEvents ⟨true, 2000, true⟩ initCoord
        [.trigger 0, .fireDeb 2000, .trigger 2100, .fireDeb 4100, .fail "network"]).syncStarts = [2000]
    ∧ (runEvents ⟨true, 2000, true⟩ initCoord
        [.trigger 0, .fireDeb 2000, .trigger 2100, .fireDeb 4100, .fail "network"]).status = .error
    ∧ (runEvents ⟨true, 2000, true⟩ initCoord
        [.trigger 0, .fireDeb 2000, .trigger 2100, .fireDeb 4100, .fail "network"]).pendingChanges = true
    ∧ (runEvents ⟨true, 2000, true⟩ initCoord
        [.trigger 0, .fireDeb 2000, .trigger 2100, .fireDeb 4100, .fail "network"]).pendingAfterSync = true
    ∧ (runEvents ⟨true, 2000, true⟩ initCoord
        [.trigger 0, .fireDeb 2000, .trigger 2100, .fireDeb 4100, .fail "network"]).inFlight = 0
    ∧ (runEvents ⟨true, 2000, true⟩ initCoord
        [.trigger 0, .fireDeb 2000, .trigger 2100, .fireDeb 4100, .fail "network"]).debounceDeadline = none
    ∧ (runEvents ⟨true, 2000, true⟩ initCoord
        [.trigger 0, .fireDeb 2000, .trigger 2100, .fireDeb 4100, .fail "network"]).rerunDeadline = none
    ∧ (runEvents ⟨true, 2000, true⟩ initCoord
        [.trigger 0, .fireDeb 2000, .trigger 2100, .fireDeb 4100, .fail "network"]).settleDeadline = none := by
  decide

/-- C1 (amended): two sync operations never execute simultaneously
(`inFlight ≤ 1` holds along every event run from the initial state), and a
sync requested while one is in flight only sets the rerun flag without
starting an `onSync` invocation; if the in-flight sync then completes
SUCCESSFULLY, a rerun timer is armed `debounceMs` after the completion and
its expiry runs exactly one additional sync; if the in-flight sync completes
with FAILURE, no rerun is scheduled and no additional sync starts. -/
theorem C1_single_flight (cfg : SyncCfg) (evs : List SyncEv) (s : Coord)
    (t u : Nat) (msg : String)
    (hE : cfg.enabled = true) (hS : cfg.hasOnSync = true)
    (hOn : s.isOnline = true) (hIn : s.inFlight = 1) (hRd : s.rerunDeadline = none) :
    (runEvents cfg initCoord evs).inFlight ≤ 1
    ∧ (performSync cfg s t).syncStarts = s.syncStarts
    ∧ (performSync cfg s t).inFlight = 1
    ∧ (performSync cfg s t).pendingAfterSync = true
    ∧ (syncSuccess cfg (performSync cfg s t) u).rerunDeadline = some (u + cfg.debounceMs)
    ∧ (fireRerunAt cfg (syncSuccess cfg (performSync cfg s t) u) (u + cfg.debounceMs)).syncStarts
        = s.syncStarts ++ [u + cfg.debounceMs]
    ∧ (syncFailure (performSync cfg s t) msg).rerunDeadline = none
    ∧ (syncFailure (performSync cfg s t) msg).syncStarts = s.syncStarts := by
  have hmark : performSync cfg s t = { s with pendingAfterSync := true } := by
    simp [performSync, hE, hS, hOn, hIn]
  have hsucc : syncSuccess cfg { s with pendingAfterSync := true } u =
      { s with status := .synced, lastSyncTime := some u, pendingChanges := false,
               error := none, pendingAfterSync := false,
               rerunDeadline := some (u + cfg.debounceMs), inFlight := 0 } := by
    simp [syncSuccess, hIn]
  refine ⟨runEvents_inFlight_le_one cfg evs initCoord (by simp [initCoord]),
    ?_, ?_, ?_, ?_, ?_, ?_, ?_⟩
  · rw [hmark]
  · rw [hmark]
    exact hIn
  · rw [hmark]
  · rw [hmark, hsucc]
  · rw [hmark, hsucc]
    simp [fireRerunAt, performSync, hE, hS, hOn]
  · rw [hmark]
    simp [syncFailure, hIn, hRd]
  · rw [hmark]
    simp [syncFailure, hIn]

/-- Coordinator state with one sync in flight, used to witness C1. -/
def coordSyncing : Coord :=
  { initCoord with inFlight := 1, status := .syncing }

/-- Witness for C1 at a concrete in-flight state and times. -/
theorem C1_witness :
    (runEvents ⟨true, 2000, true⟩ initCoord [.trigger 0, .fireDeb 2000]).inFlight ≤ 1
    ∧ (performSync ⟨true, 2000, true⟩ coordSyncing 2100).pendingAfterSync = true
    ∧ (syncSuccess ⟨true, 2000, true⟩
        (performSync ⟨true, 2000, true⟩ coordSyncing 2100) 3000).rerunDeadline = some (3000 + 2000)
    ∧ (fireRerunAt ⟨true, 2000, true⟩
        (syncSuccess ⟨true, 2000, true⟩
          (performSync ⟨true, 2000, true⟩ coordSyncing 2100) 3000) (3000 + 2000)).syncStarts
        = coordSyncing.syncStarts ++ [3000 + 2000]
    ∧ (syncFailure (performSync ⟨true, 2000, true⟩ coordSyncing 2100) "boom").syncStarts
        = coordSyncing.syncStarts := by
  have h := C1_single_flight ⟨true, 2000, true⟩ [.trigger 0, .fireDeb 2000] coordSyncing
    2100 3000 "boom" rfl rfl rfl rfl rfl
  exact ⟨h.1, h.2.2.2.1, h.2.2.2.2.1, h.2.2.2.2.2.1, h.2.2.2.2.2.2.2⟩

/-- Searching a concatenation whose first part has no match searches the
second part. -/
theorem find_append_of_none {α : Type} (p : α → Bool) (l1 l2 : List α)
    (h : l1.find? p = none) : (l1 ++ l2).find? p = l2.find? p := by
  induction l1 with
  | nil => simp
  | cons a l ih =>
    cases hpa : p a with
    | true =>
      rw [List.find?_cons_of_pos _ hpa] at h
      exact absurd h (by simp)
    | false =>
      rw [List.cons_append, List.find?_cons_of_neg _ (by simp [hpa])]
      rw [List.find?_cons_of_neg _ (by simp [hpa])] at h
      exact ih h

/-- A fresh id (strictly above every stored id) matches no stored file. -/
theorem find_none_of_ids_lt {α : Type} (l : List (RemoteFile α)) (n : Nat)
    (h : ∀ f ∈ l, f.id < n) : l.find? (fun f => f.id == n) = none := by
  induction l with
  | nil => rfl
  | cons a l ih =>
    have ha : ¬ (a.id == n) = true := by
      have := h a (List.mem_cons_self a l)
      simp only [beq_iff_eq]
      omega
    rw [List.find?_cons_of_neg _ (by exact ha)]
    exact ih (fun f hf => h f (List.mem_cons_of_mem a hf))

/-- After updating the content of every file with a given id, searching for
that id finds a file carrying the new content. -/
theorem find_update_content {α : Type} (l : List (RemoteFile α)) (fid : Nat) (v : α) (now : Nat)
    (h : l.any (fun f => f.id == fid) = true) :
    ∃ g, (l.map (fun f =>
        if f.id == fid then { f with content := v, modifiedTime := now } else f)).find?
        (fun f => f.id == fid) = some g ∧ g.content = v := by
  induction l with
  | nil => simp at h
  | cons a l ih =>
    simp only [List.map_cons]
    by_cases hpa : a.id = fid
    · refine ⟨{ a with content := v, modifiedTime := now }, ?_, rfl⟩
      have hcond : (a.id == fid) = true := by simp [hpa]
      rw [if_pos hcond]
      exact List.find?_cons_of_pos _ (by simp [hpa])
    · rw [if_neg (by simp [hpa])]
      rw [List.find?_cons_of_neg _ (by simp [hpa])]
      apply ih
      simp only [List.any_cons, Bool.or_eq_true] at h
      rcases h with h | h
      · exact absurd (by simpa using h) hpa
      · exact h

/-- A freshly inserted cache entry is what the cache lookup returns. -/
theorem cacheLookup_cacheInsert (c : List (String × Nat × Nat)) (k : String) (v : Nat × Nat) :
    cacheLookup (cacheInsert c k v) k = some v := by
  unfold cacheLookup cacheInsert
  rw [List.find?_cons_of_pos _ (by simp)]
  rfl

/-- The head of a list, when present, is a member. -/
theorem mem_of_head_opt {α : Type} {l : List α} {a : α} (h : l.head? = some a) : a ∈ l := by
  cases l with
  | nil => simp at h
  | cons b l =>
    simp only [List.head?_cons, Option.some.injEq] at h
    rw [← h]
    exact List.mem_cons_self b l

/-- Updating an existing file succeeds and the updated drive serves the new
content under the same id. -/
theorem writeFile_update_ok {α : Type} (d : Drive α) (name folder : String) (v : α)
    (fid now : Nat) (hex : d.files.any (fun f => f.id == fid) = true) :
    writeFile d name v folder (some fid) now =
      .ok (fid, { d with files := d.files.map (fun f =>
        if f.id == fid then { f with content := v, modifiedTime := now } else f) })
    ∧ readFile { d with files := d.files.map (fun f =>
        if f.id == fid then { f with content := v, modifiedTime := now } else f) } fid = .ok v := by
  constructor
  · simp only [writeFile]
    rw [if_pos hex]
  · unfold readFile
    obtain ⟨g, hg, hgc⟩ := find_update_content d.files fid v now hex
    rw [hg]
    simp [hgc]

/-- Creating a file on a well-formed drive succeeds with the fresh id and the
resulting drive serves the stored content under that id. -/
theorem writeFile_create_ok {α : Type} (d : Drive α) (name folder : String) (v : α)
    (now : Nat) (hwf : d.wf) :
    writeFile d name v folder none now =
      .ok (d.nextId,
        { files := d.files ++
                     [{ id := d.nextId, name := name, folderId := folder,
                        content := v, modifiedTime := now }],
          nextId := d.nextId + 1 })
    ∧ readFile
        { files := d.files ++
                     [{ id := d.nextId, name := name, folderId := folder,
                        content := v, modifiedTime := now }],
          nextId := d.nextId + 1 } d.nextId = .ok v := by
  constructor
  · rfl
  · unfold readFile
    have h1 : d.files.find? (fun f => f.id == d.nextId) = none :=
      find_none_of_ids_lt d.files d.nextId hwf.2
    rw [find_append_of_none _ _ _ h1]
    rw [List.find?_cons_of_pos _ (by simp)]

/-- C7: on every backend variant, `put(key, value)` resolves to `value` and a
subsequent `get(key)` on the resulting state returns exactly the stored
value. For the drive variant this holds on a working backend: a well-formed
remote drive (`Drive.wf`) and a file cache whose entries denote existing
remote files (`cacheConsistent`). -/
theorem C7_put_get_roundtrip {α : Type} (svc : GoogleDriveSvc) (d : Drive α)
    (key : String) (v : α) (now : Nat) (store wh : List (String × α))
    (hwf : d.wf) (hc : cacheConsistent svc d) :
    (svcPut svc d key v now).1 = .ok v
    ∧ (svcGet (svcPut svc d key v now).2.1 (svcPut svc d key v now).2.2 key).1 = .ok (some v)
    ∧ (localPut store key v).1 = v
    ∧ localGet (localPut store key v).2 key = some v
    ∧ (warehousePut wh key v).1 = v
    ∧ warehouseGet (warehousePut wh key v).2 key = some v := by
  have hlocal : localGet (localPut store key v).2 key = some v := by
    unfold localGet localPut
    rw [List.find?_cons_of_pos _ (by simp)]
    rfl
  have hwh : warehouseGet (warehousePut wh key v).2 key = some v := by
    unfold warehouseGet warehousePut
    rw [List.find?_cons_of_pos _ (by simp)]
    rfl
  have hmain : (svcPut svc d key v now).1 = .ok v ∧
      (svcGet (svcPut svc d key v now).2.1 (svcPut svc d key v now).2.2 key).1 = .ok (some v) := by
    cases hcl : cacheLookup svc.cache key with
    | some p =>
      obtain ⟨fid, mt⟩ := p
      obtain ⟨f, hf, hfid⟩ := hc key fid mt hcl
      have hany : d.files.any (fun g => g.id == fid) = true := by
        simp only [List.any_eq_true]
        exact ⟨f, hf, by simp [hfid]⟩
      obtain ⟨hw, hr⟩ := writeFile_update_ok d (getFileName key) svc.folderId v fid now hany
      constructor
      · simp [svcPut, getFileInfo, hcl, hw]
      · simp only [beq_iff_eq] at hr
        simp [svcPut, svcGet, getFileInfo, hcl, hw, cacheLookup_cacheInsert, hr]
    | none =>
      cases hff : findFile d (getFileName key) svc.folderId with
      | some f =>
        have hmem : f ∈ d.files := by
          unfold findFile at hff
          exact (List.mem_filter.mp (mem_of_head_opt hff)).1
        have hany : d.files.any (fun g => g.id == f.id) = true := by
          simp only [List.any_eq_true]
          exact ⟨f, hmem, by simp⟩
        obtain ⟨hw, hr⟩ := writeFile_update_ok d (getFileName key) svc.folderId v f.id now hany
        constructor
        · simp [svcPut, getFileInfo, hcl, hff, hw]
        · simp only [beq_iff_eq] at hr
          simp [svcPut, svcGet, getFileInfo, hcl, hff, hw, cacheLookup_cacheInsert, hr]
      | none =>
        obtain ⟨hw, hr⟩ := writeFile_create_ok d (getFileName key) svc.folderId v now hwf
        constructor
        · simp [svcPut, getFileInfo, hcl, hff, hw]
        · simp [svcPut, svcGet, getFileInfo, hcl, hff, hw, cacheLookup_cacheInsert, hr]
  exact ⟨hmain.1, hmain.2, rfl, hlocal, rfl, hwh⟩

/-- Witness for C7: a fresh drive service over an empty remote folder, an
empty local store and an empty warehouse store, with `α = Nat`. -/
theorem C7_witness :
    (svcPut ⟨"folder", []⟩ (⟨[], 0⟩ : Drive Nat) "forgesteel-heroes" 42 5).1 = .ok 42
    ∧ (svcGet (svcPut ⟨"folder", []⟩ (⟨[], 0⟩ : Drive Nat) "forgesteel-heroes" 42 5).2.1
        (svcPut ⟨"folder", []⟩ (⟨[], 0⟩ : Drive Nat) "forgesteel-heroes" 42 5).2.2
        "forgesteel-heroes").1 = .ok (some 42)
    ∧ (localPut ([] : List (String × Nat)) "forgesteel-heroes" 42).1 = 42
    ∧ localGet (localPut ([] : List (String × Nat)) "forgesteel-heroes" 42).2 "forgesteel-heroes" = some 42
    ∧ (warehousePut ([] : List (String × Nat)) "forgesteel-heroes" 42).1 = 42
    ∧ warehouseGet (warehousePut ([] : List (String × Nat)) "forgesteel-heroes" 42).2 "forgesteel-heroes" = some 42 := by
  exact C7_put_get_roundtrip ⟨"folder", []⟩ ⟨[], 0⟩ "forgesteel-heroes" 42 5 [] []
    ⟨List.Pairwise.nil, by simp⟩
    (by intro k fid mt h; simp [cacheLookup] at h)
